import Mathlib

/-!
Verification of `uncertaintylib` (equinor/uncertaintylib).

Part 1 embeds `uncertaintylib/uncertainty_models/gas_composition.py`:
the three gas-composition uncertainty estimators (ASTM D1945,
NORSOK I-106, Hagenvik 2024).  Compositions are association lists from
component names to mole percentages; exact rationals stand for Python
floats, and the Hagenvik power law `a * x ** b` is embedded with the
real power function.  Fallible paths (`raise ValueError`) are embedded
with `Except String`.

Part 2 models the core `uncertainty_functions` module (analytical
combiner, numerical differentiator, Monte Carlo engine), whose source
file is not part of the repository snapshot: those definitions are
modelled from the specification and marked as such.
-/

/-- Association-list access, mirroring Python dictionary access on the
dictionaries of this library (string keys, first match). -/
def getVal? {β : Type} (m : List (String × β)) (k : String) : Option β :=
  match m with
  | [] => Option.none
  | p :: rest => if k = p.1 then Option.some p.2 else getVal? rest k

/-- Key list of an association list (Python `dict.keys()`). -/
def keysOf {β : Type} (m : List (String × β)) : List String :=
  m.map (fun p => p.1)

/-- Sum of the values of an association list (Python `sum(d.values())`). -/
def sumVals (m : List (String × ℚ)) : ℚ :=
  (m.map (fun p => p.2)).sum

/-- GERG-2008 molar masses (g/mol), from the module-level constant
`GERG_2008_MOLAR_MASSES` of `gas_composition.py`. -/
def GERG_2008_MOLAR_MASSES : List (String × ℚ) :=
  [("C1", 16.04246), ("N2", 28.0134), ("CO2", 44.0095), ("C2", 30.06904),
   ("C3", 44.09562), ("iC4", 58.1222), ("nC4", 58.1222), ("iC5", 72.14878),
   ("nC5", 72.14878), ("nC6", 86.17536), ("nC7", 100.20194), ("nC8", 114.22852),
   ("nC9", 128.2551), ("nC10", 142.28168), ("H2", 2.01588), ("O2", 31.9988),
   ("CO", 28.0101), ("H2O", 18.01528), ("H2S", 34.08088), ("He", 4.002602),
   ("Ar", 39.948)]

/-- Molar mass of a component (dictionary access into the GERG-2008 table;
only ever used for supported components, where the entry exists). -/
def molarMass (c : String) : ℚ :=
  (getVal? GERG_2008_MOLAR_MASSES c).getD 0

/-- The keys of `composition_mole_percent` that are not in the allowed list
(the comprehension `[comp for comp in composition_mole_percent.keys() if
comp not in allowed_components]`). -/
def unsupportedComponents (allowed : List String) (comp : List (String × ℚ)) : List String :=
  (keysOf comp).filter (fun c => ¬ c ∈ allowed)

/-- The `ValueError` message raised for unsupported components
(`f"Unsupported components: ... Allowed components: ..."`). -/
def unsupportedMessage (unsupported allowed : List String) : String :=
  "Unsupported components: [" ++ String.intercalate ", " unsupported ++
    "]. Allowed components: [" ++ String.intercalate ", " allowed ++ "]"

/-- The `ValueError` message raised when the composition sums to zero. -/
def zeroTotalMessage : String := "Total composition is zero. Cannot normalize."

/-- Normalization of a composition to 100 %
(`{key: (val / total_composition) * 100 for key, val in ...}`). -/
def normalizeComposition (comp : List (String × ℚ)) : List (String × ℚ) :=
  comp.map (fun p => (p.1, p.2 / sumVals comp * 100))

/-- Result record of the three estimators: the returned dictionary has
exactly the keys `mean`, `standard_uncertainty`, `min`, `max` and
`distribution`, each holding a per-component dictionary.  The value type
of `standard_uncertainty` is a parameter because the Hagenvik method
produces real (power-law) values while the other two stay rational. -/
structure CompositionUncertainty (α : Type) where
  mean : List (String × ℚ)
  standard_uncertainty : List (String × α)
  min : List (String × ℚ)
  max : List (String × ℚ)
  distribution : List (String × String)

/-- Components accepted by `component_uncertainty_from_ASTM_D1945`. -/
def astm_allowed : List String :=
  ["N2", "CO2", "C1", "C2", "C3", "iC4", "nC4", "iC5", "nC5", "nC6", "nC7",
   "nC8", "nC9", "nC10"]

/-- ASTM D1945 reproducibility table: expanded uncertainty (k=2) as a
function of the normalized mole percent. -/
def astm_expanded (mole_percent : ℚ) : ℚ :=
  if mole_percent < 0.1 then 0.02
  else if mole_percent < 1.0 then 0.07
  else if mole_percent < 5.0 then 0.10
  else if mole_percent < 10.0 then 0.12
  else 0.15

/-- Successful-branch result of `component_uncertainty_from_ASTM_D1945`. -/
def astm_ok (comp : List (String × ℚ)) : CompositionUncertainty ℚ :=
  let normalized := normalizeComposition comp
  { mean := normalized
    standard_uncertainty := normalized.map (fun p => (p.1, astm_expanded p.2 / 2))
    min := normalized.map (fun p => (p.1, (0 : ℚ)))
    max := normalized.map (fun p => (p.1, (100 : ℚ)))
    distribution := normalized.map (fun p => (p.1, "normal")) }

/-- `component_uncertainty_from_ASTM_D1945` of `gas_composition.py`:
check for unsupported components, then for a zero total, then normalize
and apply the reproducibility table (k=2 values halved to k=1). -/
def component_uncertainty_from_ASTM_D1945 (comp : List (String × ℚ)) :
    Except String (CompositionUncertainty ℚ) :=
  if unsupportedComponents astm_allowed comp ≠ [] then
    Except.error (unsupportedMessage (unsupportedComponents astm_allowed comp) astm_allowed)
  else if sumVals comp = 0 then
    Except.error zeroTotalMessage
  else
    Except.ok (astm_ok comp)

/-- Components accepted by `component_uncertainty_from_norsok_I106`
(`list(GERG_2008_MOLAR_MASSES.keys())`). -/
def norsok_allowed : List String :=
  keysOf GERG_2008_MOLAR_MASSES

/-- NORSOK I-106 factor as a function of the component's mass percent. -/
def norsok_factor (mass_percent : ℚ) : ℚ :=
  if mass_percent < 20 then 0.15
  else if mass_percent < 50 then 0.30
  else 0.60

/-- Successful-branch result of `component_uncertainty_from_norsok_I106`:
average molar mass and mass percents are computed from the normalized
composition, the factor is chosen from the mass percent, and the
expanded uncertainty `factor * M_avg / M_i` is halved to k=1. -/
def norsok_ok (comp : List (String × ℚ)) : CompositionUncertainty ℚ :=
  let normalized := normalizeComposition comp
  let average_molar_mass := ((normalized.map (fun p => p.2 * molarMass p.1)).sum) / 100
  let total_mass := (normalized.map (fun p => p.2 * molarMass p.1)).sum
  let mass_percent := fun (p : String × ℚ) => p.2 * molarMass p.1 / total_mass * 100
  { mean := normalized
    standard_uncertainty := normalized.map (fun p =>
      (p.1, norsok_factor (mass_percent p) * average_molar_mass / molarMass p.1 / 2))
    min := normalized.map (fun p => (p.1, (0 : ℚ)))
    max := normalized.map (fun p => (p.1, (100 : ℚ)))
    distribution := normalized.map (fun p => (p.1, "normal")) }

/-- `component_uncertainty_from_norsok_I106` of `gas_composition.py`. -/
def component_uncertainty_from_norsok_I106 (comp : List (String × ℚ)) :
    Except String (CompositionUncertainty ℚ) :=
  if unsupportedComponents norsok_allowed comp ≠ [] then
    Except.error (unsupportedMessage (unsupportedComponents norsok_allowed comp) norsok_allowed)
  else if sumVals comp = 0 then
    Except.error zeroTotalMessage
  else
    Except.ok (norsok_ok comp)

/-- Components accepted by `component_uncertainty_from_haagenvik2024`
(the same literal list as in the ASTM function). -/
def haagenvik_allowed : List String :=
  ["N2", "CO2", "C1", "C2", "C3", "iC4", "nC4", "iC5", "nC5", "nC6", "nC7",
   "nC8", "nC9", "nC10"]

/-- Power law regression coefficients `(power_a, power_b)` from K-lab
sample parallel tests (the `power_models` dictionary). -/
def power_models : List (String × ℚ × ℚ) :=
  [("N2", 0.034, 1.005), ("CO2", 0.013, 0.514), ("C2", 0.041, -0.118),
   ("C3", 0.025, 0.970), ("iC4", 0.018, 0.635), ("nC4", 0.027, 0.793),
   ("iC5", 0.016, 0.383), ("nC5", 0.023, 0.470), ("C6", 0.103, 0.683)]

/-- The power law `a * mole_percent ** b` (real exponentiation, since the
exponents are not integers). -/
noncomputable def powerLawU (a b mole_percent : ℚ) : ℝ :=
  (a : ℝ) * (mole_percent : ℝ) ^ (b : ℝ)

/-- Per-component standard uncertainty of the Hagenvik 2024 method, before
the optional lower limit: zero concentration gives 0, methane gives 0,
components with a power model use it, heavy components `nC6`..`nC10` use
the `C6` model, anything else raises. -/
noncomputable def haagenvik_component_u (component : String) (mole_percent : ℚ) :
    Except String ℝ :=
  if mole_percent = 0 then Except.ok 0
  else if component = "C1" then Except.ok 0
  else
    match getVal? power_models component with
    | Option.some ab => Except.ok (powerLawU ab.1 ab.2 mole_percent)
    | Option.none =>
      if component ∈ ["nC6", "nC7", "nC8", "nC9", "nC10"] then
        match getVal? power_models "C6" with
        | Option.some ab => Except.ok (powerLawU ab.1 ab.2 mole_percent)
        | Option.none => Except.error "C6 power model missing"
      else
        Except.error ("Component " ++ component ++ " is not supported by this method.")

/-- Sequential effectful mapping over a list (the `for` loops of the
library that build a dictionary and abort on the first raised error). -/
def collectExcept {α β : Type} (f : α → Except String β) : List α → Except String (List β)
  | [] => Except.ok []
  | a :: l =>
    match f a with
    | Except.error e => Except.error e
    | Except.ok b =>
      match collectExcept f l with
      | Except.error e => Except.error e
      | Except.ok bs => Except.ok (b :: bs)

/-- The optional lower uncertainty limit: `if lower_uncertainty_limit is
not None and u < lower_uncertainty_limit: u = lower_uncertainty_limit`. -/
noncomputable def applyLowerLimit (limit : Option ℚ) (u : ℝ) : ℝ :=
  match limit with
  | Option.none => u
  | Option.some l => if u < (l : ℝ) then (l : ℝ) else u

/-- One step of the Hagenvik standard-uncertainty loop: compute the raw
uncertainty of a component, then apply the optional lower limit. -/
noncomputable def haagenvik_su_step (limit : Option ℚ) (p : String × ℚ) :
    Except String (String × ℝ) :=
  (haagenvik_component_u p.1 p.2).map (fun u => (p.1, applyLowerLimit limit u))

/-- `component_uncertainty_from_haagenvik2024` of `gas_composition.py`:
check for unsupported components, then for a zero total, then normalize
and run the per-component power-law loop (which aborts on the first
error, mirroring the mid-loop `raise`). -/
noncomputable def component_uncertainty_from_haagenvik2024 (comp : List (String × ℚ))
    (lower_uncertainty_limit : Option ℚ) :
    Except String (CompositionUncertainty ℝ) :=
  if unsupportedComponents haagenvik_allowed comp ≠ [] then
    Except.error
      (unsupportedMessage (unsupportedComponents haagenvik_allowed comp) haagenvik_allowed)
  else if sumVals comp = 0 then
    Except.error zeroTotalMessage
  else
    let normalized := normalizeComposition comp
    match collectExcept (haagenvik_su_step lower_uncertainty_limit) normalized with
    | Except.error e => Except.error e
    | Except.ok su =>
      Except.ok
        { mean := normalized
          standard_uncertainty := su
          min := normalized.map (fun p => (p.1, (0 : ℚ)))
          max := normalized.map (fun p => (p.1, (100 : ℚ)))
          distribution := normalized.map (fun p => (p.1, "normal")) }

/-!
Part 2: the core `uncertainty_functions` module.  Its source file is
not part of the repository snapshot (only its tests, examples and
callers are), so the definitions below are modelled from the
specification, as their doc comments state.
-/

/-- Modelled from the spec: the distribution families of the
InputSpecSet, one of normal, uniform or none (a constant, non-varied
input).  The `uncertainty_functions` source is missing from the
snapshot. -/
inductive DistFamily where
  | normal
  | uniform
  | none
deriving DecidableEq

/-- Modelled from the spec: the per-input fields of the InputSpecSet.
Missing or not-a-number entries are treated as absent, hence the
`Option` fields.  The `uncertainty_functions` source is missing from
the snapshot. -/
structure InputSpec where
  mean : ℚ
  standard_uncertainty : Option ℚ
  standard_uncertainty_percent : Option ℚ
  distribution : DistFamily
  min : Option ℚ
  max : Option ℚ
deriving DecidableEq

/-- Modelled from the spec: resolution of the effective standard
uncertainty.  When both the absolute and the percentage uncertainty are
numeric, the effective standard uncertainty is the larger of the two,
converting percentage to absolute via the mean. -/
def effective_standard_uncertainty (s : InputSpec) : Option ℚ :=
  match s.standard_uncertainty, s.standard_uncertainty_percent with
  | Option.some a, Option.some p => Option.some (max a (p / 100 * s.mean))
  | Option.some a, Option.none => Option.some a
  | Option.none, Option.some p => Option.some (p / 100 * s.mean)
  | Option.none, Option.none => Option.none

/-- The mapping of input names to nominal means induced by an input set. -/
def meansOf (data : List (String × InputSpec)) : String → ℚ :=
  fun i => ((getVal? data i).map InputSpec.mean).getD 0

/-- Modelled from the spec: the varied inputs, i.e. those whose
distribution is not `none`; the others are held fixed and excluded from
differentiation and sampling. -/
def variedInputs (data : List (String × InputSpec)) : List (String × InputSpec) :=
  data.filter (fun p => p.2.distribution ≠ DistFamily.none)

/-- Modelled from the spec: fail-fast resolution of the effective
standard uncertainty of every varied input (a specification error is
raised before any computation when one is unresolvable). -/
def resolveUncertainties (data : List (String × InputSpec)) :
    Except String (List (String × ℚ)) :=
  collectExcept (fun p =>
    match effective_standard_uncertainty p.2 with
    | Option.some u => Except.ok (p.1, u)
    | Option.none => Except.error ("No resolvable uncertainty for input " ++ p.1))
    (variedInputs data)

/-- Modelled from the spec: the perturbation used by the numerical
differentiator, a small step relative to the mean with a floor for
near-zero means. -/
def perturbationStep (h m : ℚ) : ℚ :=
  if m = 0 then h else h * |m|

/-- Point update of an input-value mapping (perturb one input, holding
all other inputs at their means). -/
def updateAt (means : String → ℚ) (i : String) (v : ℚ) : String → ℚ :=
  fun j => if j = i then v else means j

/-- Modelled from the spec: the central-difference derivative of one
output with respect to one input,
`(f(m + d) - f(m - d)) / (2 d)` with all other inputs at their means. -/
def central_difference (fn : (String → ℚ) → List (String × ℚ))
    (means : String → ℚ) (i : String) (d : ℚ) (out : String) : ℚ :=
  ((getVal? (fn (updateAt means i (means i + d))) out).getD 0 -
    (getVal? (fn (updateAt means i (means i - d))) out).getD 0) / (2 * d)

/-- Modelled from the spec: the numerical differentiator.  For every
output, the central-difference sensitivity coefficient of every varied
input; inputs with distribution `none` are excluded. -/
def compute_sensitivities (data : List (String × InputSpec))
    (fn : (String → ℚ) → List (String × ℚ)) (h : ℚ) :
    List (String × List (String × ℚ)) :=
  let means := meansOf data
  (fn means).map (fun out =>
    (out.1, (variedInputs data).map (fun p =>
      (p.1, central_difference fn means p.1 (perturbationStep h (means p.1)) out.1))))

/-- Modelled from the spec: the ConventionalUncertaintyResult, per
output the nominal value, combined standard uncertainty u, expanded
uncertainty U, relative expanded uncertainty U_perc and the per-input
contribution shares. -/
structure UncResult where
  value : List (String × ℚ)
  u : List (String × ℝ)
  U : List (String × ℝ)
  U_perc : List (String × ℝ)
  contribution : List (String × List (String × ℚ))

/-- Modelled from the spec: the sensitivity coefficient used by the
analytical combiner, a central difference of one output with respect to
one input at the relative perturbation step. -/
def sensCoeff (data : List (String × InputSpec))
    (fn : (String → ℚ) → List (String × ℚ)) (h : ℚ) (i out : String) : ℚ :=
  central_difference fn (meansOf data) i (perturbationStep h (meansOf data i)) out

/-- Modelled from the spec: the combined variance of one output, the sum
over the resolved inputs of the squared products of sensitivity
coefficient and effective uncertainty (independent inputs, no
covariance terms). -/
def combinedVariance (data : List (String × InputSpec))
    (fn : (String → ℚ) → List (String × ℚ)) (h : ℚ)
    (us : List (String × ℚ)) (out : String) : ℚ :=
  (us.map (fun q => (sensCoeff data fn h q.1 out * q.2) ^ 2)).sum

/-- Modelled from the spec: the analytical combiner
`calculate_uncertainty`.  Effective uncertainties are resolved by the
larger-of rule, sensitivity coefficients come from the central
difference, the combined variance is the sum of the squared products
(independent inputs), u is its square root, U = k u,
U_perc = 100 U / |value|, and the contribution of an input is the
percentage share of the combined variance (0 when that variance is 0).
`uncResultOf` is the record built in the success branch. -/
noncomputable def uncResultOf (data : List (String × InputSpec))
    (fn : (String → ℚ) → List (String × ℚ)) (h k : ℚ)
    (us : List (String × ℚ)) : UncResult :=
  let base := fn (meansOf data)
  { value := base
    u := base.map (fun p =>
      (p.1, Real.sqrt ((combinedVariance data fn h us p.1 : ℚ) : ℝ)))
    U := base.map (fun p =>
      (p.1, (k : ℝ) * Real.sqrt ((combinedVariance data fn h us p.1 : ℚ) : ℝ)))
    U_perc := base.map (fun p =>
      (p.1, 100 * ((k : ℝ) * Real.sqrt ((combinedVariance data fn h us p.1 : ℚ) : ℝ)) /
        |(p.2 : ℝ)|))
    contribution := base.map (fun p => (p.1, us.map (fun q =>
      (q.1, if combinedVariance data fn h us p.1 = 0 then 0
            else 100 * (sensCoeff data fn h q.1 p.1 * q.2) ^ 2 /
              combinedVariance data fn h us p.1)))) }

/-- Modelled from the spec: `calculate_uncertainty` resolves the
effective uncertainties (failing fast on a specification error) and
otherwise returns the analytical result record. -/
noncomputable def calculate_uncertainty (data : List (String × InputSpec))
    (fn : (String → ℚ) → List (String × ℚ)) (h k : ℚ) : Except String UncResult :=
  match resolveUncertainties data with
  | Except.error e => Except.error e
  | Except.ok us => Except.ok (uncResultOf data fn h k us)

/-- Modelled from the spec: one draw of the distribution sampler.  An
input with distribution `none` draws its mean exactly on every trial;
the random families (normal, uniform) are supplied by a sampler oracle,
since their draws are not pinned down by the spec. -/
def draw (sampler : InputSpec → ℕ → ℚ) (s : InputSpec) (t : ℕ) : ℚ :=
  match s.distribution with
  | DistFamily.none => s.mean
  | _ => sampler s t

/-- Modelled from the spec: the Monte Carlo engine.  For each of n
trials, draw one value per input, record the sampled inputs as the
trial's used values, and evaluate the calculation function on them. -/
def monte_carlo_simulation (data : List (String × InputSpec))
    (fn : (String → ℚ) → List (String × ℚ)) (n : ℕ)
    (sampler : InputSpec → ℕ → ℚ) :
    List (List (String × ℚ) × List (String × ℚ)) :=
  (List.range n).map (fun t =>
    let used := data.map (fun p => (p.1, draw sampler p.2 t))
    (used, fn (fun i => (getVal? used i).getD 0)))

/-- Modelled from the spec: the budget combiner
`combined_standard_uncertainty`.  If ci is omitted, every sensitivity
coefficient defaults to 1.0; the result is
`sqrt(sum of (c_i * u_i) squared)`. -/
noncomputable def combined_standard_uncertainty (u : List (String × ℚ))
    (ci : Option (List (String × ℚ))) : ℝ :=
  let ciEff :=
    match ci with
    | Option.none => u.map (fun p => (p.1, (1 : ℚ)))
    | Option.some c => c
  Real.sqrt (((u.map (fun p => ((getVal? ciEff p.1).getD 1 * p.2) ^ 2)).sum : ℚ) : ℝ)

/-- The test calculation function `_calculate_volume` of
`tests/test_uncertainty_functions.py`: volume = L W D, area = L W. -/
def calculate_volume (inputs : String → ℚ) : List (String × ℚ) :=
  [("volume", inputs "L" * inputs "W" * inputs "D"),
   ("area", inputs "L" * inputs "W")]

/-- The input data of `test_calculate_uncertainty_01`: means 2, 2, 2 and
absolute standard uncertainties 0.3, 0.1, 0.2 for L, W, D (distribution
defaults to normal when an uncertainty is given). -/
def data01 : List (String × InputSpec) :=
  [("L", ⟨2, Option.some 0.3, Option.none, DistFamily.normal, Option.none, Option.none⟩),
   ("W", ⟨2, Option.some 0.1, Option.none, DistFamily.normal, Option.none, Option.none⟩),
   ("D", ⟨2, Option.some 0.2, Option.none, DistFamily.normal, Option.none, Option.none⟩)]

/-- A one-input identity calculation function, used to exhibit which
effective standard uncertainty `calculate_uncertainty` uses. -/
def idCalc (inputs : String → ℚ) : List (String × ℚ) :=
  [("y", inputs "x")]

/-- The input of the larger-of rule example: mean 2.0, absolute standard
uncertainty 0.001, percentage standard uncertainty 5. -/
def largerOfInput : InputSpec :=
  ⟨2, Option.some 0.001, Option.some 5, DistFamily.normal, Option.none, Option.none⟩

/-- x rounds to the integer n at p decimal places (n is the rounded
value scaled by 10 ^ p). -/
def roundsTo (x : ℝ) (n : ℤ) (p : ℕ) : Prop :=
  (n : ℝ) - 1 / 2 ≤ x * 10 ^ p ∧ x * 10 ^ p < (n : ℝ) + 1 / 2

/-- The one-input set holding only `largerOfInput` under the name x. -/
def dataLarger : List (String × InputSpec) :=
  [("x", largerOfInput)]

/-- The resolved effective uncertainties of `data01` (0.3, 0.1, 0.2). -/
def us01 : List (String × ℚ) :=
  [("L", 0.3), ("W", 0.1), ("D", 0.2)]

/-- A varied normal input used to exercise the Monte Carlo engine. -/
def specVaried : InputSpec :=
  ⟨5, Option.some 1, Option.none, DistFamily.normal, Option.none, Option.none⟩

/-- A fixed input (distribution none) used to exercise the Monte Carlo
engine and the differentiator. -/
def specFixed : InputSpec :=
  ⟨7, Option.none, Option.none, DistFamily.none, Option.none, Option.none⟩

/-- A two-input set holding one varied and one fixed input. -/
def dataC6 : List (String × InputSpec) :=
  [("a", specVaried), ("b", specFixed)]

/-- A simple two-input sum function for the Monte Carlo fixture. -/
def sumCalc (inputs : String → ℚ) : List (String × ℚ) :=
  [("y", inputs "a" + inputs "b")]

/-- Raw Hagenvik per-component uncertainty as a total function (the value
carried by `haagenvik_component_u` when it succeeds). -/
noncomputable def hagBaseU (c : String) (x : ℚ) : ℝ :=
  ((haagenvik_component_u c x).toOption).getD 0

/-- Successful-branch result of `component_uncertainty_from_haagenvik2024`. -/
noncomputable def hag_ok (comp : List (String × ℚ)) (limit : Option ℚ) :
    CompositionUncertainty ℝ :=
  let normalized := normalizeComposition comp
  { mean := normalized
    standard_uncertainty := normalized.map (fun p =>
      (p.1, applyLowerLimit limit (hagBaseU p.1 p.2)))
    min := normalized.map (fun p => (p.1, (0 : ℚ)))
    max := normalized.map (fun p => (p.1, (100 : ℚ)))
    distribution := normalized.map (fun p => (p.1, "normal")) }

/-!  Helper lemmas about association lists and the shared skeleton of the
three estimators. -/

theorem getVal?_map_pair {β γ : Type} (l : List (String × β)) (g : String → β → γ)
    (k : String) :
    getVal? (l.map (fun p => (p.1, g p.1 p.2))) k = (getVal? l k).map (g k) := by
  induction l with
  | nil => rfl
  | cons p rest ih =>
    by_cases h : k = p.1
    · subst h; simp [getVal?]
    · simp [getVal?, h, ih]

theorem getVal?_mem {β : Type} (l : List (String × β)) (k : String)
    (hk : k ∈ keysOf l) : ∃ v, getVal? l k = Option.some v := by
  induction l with
  | nil => simp [keysOf] at hk
  | cons p rest ih =>
    by_cases h : k = p.1
    · exact ⟨p.2, by simp [getVal?, h]⟩
    · have hk2 : k ∈ keysOf rest := by simpa [keysOf, h] using hk
      obtain ⟨v, hv⟩ := ih hk2
      exact ⟨v, by simp [getVal?, h, hv]⟩

theorem keysOf_map_pair {β γ : Type} (l : List (String × β)) (g : String → β → γ) :
    keysOf (l.map (fun p => (p.1, g p.1 p.2))) = keysOf l := by
  induction l with
  | nil => rfl
  | cons p rest ih => simp [keysOf] at ih ⊢

theorem keysOf_normalize (comp : List (String × ℚ)) :
    keysOf (normalizeComposition comp) = keysOf comp :=
  keysOf_map_pair comp (fun _ v => v / sumVals comp * 100)

theorem sumVals_cons (p : String × ℚ) (l : List (String × ℚ)) :
    sumVals (p :: l) = p.2 + sumVals l := by
  simp [sumVals]

theorem sumVals_normalize (comp : List (String × ℚ)) (h : sumVals comp ≠ 0) :
    sumVals (normalizeComposition comp) = 100 := by
  have key : ∀ (l : List (String × ℚ)) (T : ℚ),
      sumVals (l.map (fun p => (p.1, p.2 / T * 100))) = sumVals l / T * 100 := by
    intro l T
    induction l with
    | nil => simp [sumVals]
    | cons p rest ih =>
      rw [List.map_cons, sumVals_cons, sumVals_cons, ih]
      ring
  rw [normalizeComposition, key comp (sumVals comp), div_self h, one_mul]

theorem mem_unsupportedComponents (allowed : List String) (comp : List (String × ℚ))
    (k : String) :
    k ∈ unsupportedComponents allowed comp ↔ k ∈ keysOf comp ∧ ¬ k ∈ allowed := by
  simp [unsupportedComponents, List.mem_filter]

theorem supported_iff (allowed : List String) (comp : List (String × ℚ)) :
    unsupportedComponents allowed comp = [] ↔ ∀ k ∈ keysOf comp, k ∈ allowed := by
  rw [List.eq_nil_iff_forall_not_mem]
  constructor
  · intro h k hk
    by_contra hnot
    exact h k ((mem_unsupportedComponents allowed comp k).2 ⟨hk, hnot⟩)
  · intro h k hk
    obtain ⟨h1, h2⟩ := (mem_unsupportedComponents allowed comp k).1 hk
    exact h2 (h k h1)

theorem ASTM_ok_of_supported (comp : List (String × ℚ))
    (h1 : unsupportedComponents astm_allowed comp = []) (h2 : sumVals comp ≠ 0) :
    component_uncertainty_from_ASTM_D1945 comp = Except.ok (astm_ok comp) := by
  unfold component_uncertainty_from_ASTM_D1945
  rw [if_neg (not_not_intro h1), if_neg h2]

theorem norsok_ok_of_supported (comp : List (String × ℚ))
    (h1 : unsupportedComponents norsok_allowed comp = []) (h2 : sumVals comp ≠ 0) :
    component_uncertainty_from_norsok_I106 comp = Except.ok (norsok_ok comp) := by
  unfold component_uncertainty_from_norsok_I106
  rw [if_neg (not_not_intro h1), if_neg h2]

theorem haagenvik_component_u_ok (c : String) (hc : c ∈ haagenvik_allowed) (x : ℚ) :
    ∃ u, haagenvik_component_u c x = Except.ok u := by
  by_cases hx : x = 0
  · exact ⟨0, by simp [haagenvik_component_u, hx]⟩
  · fin_cases hc <;>
      exact ⟨_, by unfold haagenvik_component_u; rw [if_neg hx]; rfl⟩

theorem hag_mapM_eq (limit : Option ℚ) (l : List (String × ℚ))
    (hl : ∀ p ∈ l, p.1 ∈ haagenvik_allowed) :
    collectExcept (haagenvik_su_step limit) l =
      Except.ok (l.map (fun p => (p.1, applyLowerLimit limit (hagBaseU p.1 p.2)))) := by
  induction l with
  | nil => rfl
  | cons p rest ih =>
    obtain ⟨u, hu⟩ := haagenvik_component_u_ok p.1 (hl p (List.mem_cons_self p rest)) p.2
    have hbase : hagBaseU p.1 p.2 = u := by simp [hagBaseU, hu, Except.toOption]
    have ih2 := ih (fun q hq => hl q (List.mem_cons_of_mem p hq))
    simp [collectExcept, haagenvik_su_step, hu, hbase, ih2, Except.map]

theorem haagenvik_ok_of_supported (comp : List (String × ℚ)) (limit : Option ℚ)
    (h1 : unsupportedComponents haagenvik_allowed comp = []) (h2 : sumVals comp ≠ 0) :
    component_uncertainty_from_haagenvik2024 comp limit = Except.ok (hag_ok comp limit) := by
  have hmem : ∀ p ∈ normalizeComposition comp, p.1 ∈ haagenvik_allowed := by
    intro p hp
    obtain ⟨q, hq, rfl⟩ := List.mem_map.1 hp
    exact (supported_iff haagenvik_allowed comp).1 h1 q.1 (List.mem_map_of_mem _ hq)
  unfold component_uncertainty_from_haagenvik2024
  rw [if_neg (not_not_intro h1), if_neg h2]
  simp only [hag_mapM_eq limit (normalizeComposition comp) hmem]
  rfl

theorem ASTM_error_of_unsupported (comp : List (String × ℚ))
    (h : unsupportedComponents astm_allowed comp ≠ []) :
    component_uncertainty_from_ASTM_D1945 comp =
      Except.error (unsupportedMessage (unsupportedComponents astm_allowed comp) astm_allowed) := by
  unfold component_uncertainty_from_ASTM_D1945
  rw [if_pos h]

theorem norsok_error_of_unsupported (comp : List (String × ℚ))
    (h : unsupportedComponents norsok_allowed comp ≠ []) :
    component_uncertainty_from_norsok_I106 comp =
      Except.error (unsupportedMessage (unsupportedComponents norsok_allowed comp) norsok_allowed) := by
  unfold component_uncertainty_from_norsok_I106
  rw [if_pos h]

theorem haagenvik_error_of_unsupported (comp : List (String × ℚ)) (limit : Option ℚ)
    (h : unsupportedComponents haagenvik_allowed comp ≠ []) :
    component_uncertainty_from_haagenvik2024 comp limit =
      Except.error
        (unsupportedMessage (unsupportedComponents haagenvik_allowed comp) haagenvik_allowed) := by
  unfold component_uncertainty_from_haagenvik2024
  rw [if_pos h]

theorem ASTM_error_of_zero (comp : List (String × ℚ))
    (h1 : unsupportedComponents astm_allowed comp = []) (h2 : sumVals comp = 0) :
    component_uncertainty_from_ASTM_D1945 comp = Except.error zeroTotalMessage := by
  unfold component_uncertainty_from_ASTM_D1945
  rw [if_neg (not_not_intro h1), if_pos h2]

theorem norsok_error_of_zero (comp : List (String × ℚ))
    (h1 : unsupportedComponents norsok_allowed comp = []) (h2 : sumVals comp = 0) :
    component_uncertainty_from_norsok_I106 comp = Except.error zeroTotalMessage := by
  unfold component_uncertainty_from_norsok_I106
  rw [if_neg (not_not_intro h1), if_pos h2]

theorem haagenvik_error_of_zero (comp : List (String × ℚ)) (limit : Option ℚ)
    (h1 : unsupportedComponents haagenvik_allowed comp = []) (h2 : sumVals comp = 0) :
    component_uncertainty_from_haagenvik2024 comp limit = Except.error zeroTotalMessage := by
  unfold component_uncertainty_from_haagenvik2024
  rw [if_neg (not_not_intro h1), if_pos h2]

theorem getVal?_const_map {β γ : Type} (l : List (String × β)) (c : γ) (k : String)
    (hk : k ∈ keysOf l) : getVal? (l.map (fun p => (p.1, c))) k = Option.some c := by
  obtain ⟨v, hv⟩ := getVal?_mem l k hk
  have h := getVal?_map_pair l (fun _ _ => c) k
  rw [hv] at h
  simpa using h

theorem keysOf_map_keyed {β γ : Type} (l : List (String × β)) (f : String × β → γ) :
    keysOf (l.map (fun p => (p.1, f p))) = keysOf l := by
  induction l with
  | nil => rfl
  | cons p rest ih => simp [keysOf] at ih ⊢

theorem getVal?_eq_of_mem_nodup {β : Type} (l : List (String × β)) (k : String) (v : β)
    (hnd : (keysOf l).Nodup) (hm : (k, v) ∈ l) : getVal? l k = Option.some v := by
  induction l with
  | nil => cases hm
  | cons p rest ih =>
    have hnd2 : (p.1 :: keysOf rest).Nodup := hnd
    rcases List.mem_cons.1 hm with heq | hmem
    · rw [← heq]
      simp [getVal?]
    · have hk : k ∈ keysOf rest := List.mem_map_of_mem _ hmem
      have hne : k ≠ p.1 := by
        intro he
        exact (List.nodup_cons.1 hnd2).1 (he ▸ hk)
      rw [getVal?, if_neg hne]
      exact ih (List.nodup_cons.1 hnd2).2 hmem

theorem le_applyLowerLimit (l : ℚ) (u : ℝ) :
    (l : ℝ) ≤ applyLowerLimit (Option.some l) u := by
  show (l : ℝ) ≤ if u < (l : ℝ) then (l : ℝ) else u
  by_cases h : u < (l : ℝ)
  · rw [if_pos h]
  · rw [if_neg h]
    exact le_of_not_lt h

theorem applyLowerLimit_none (u : ℝ) : applyLowerLimit Option.none u = u := rfl

theorem hagBaseU_zero (c : String) : hagBaseU c 0 = 0 := by
  simp [hagBaseU, haagenvik_component_u, Except.toOption]

theorem hagBaseU_C1 (x : ℚ) : hagBaseU "C1" x = 0 := by
  by_cases hx : x = 0 <;>
    simp [hagBaseU, haagenvik_component_u, hx, Except.toOption]

/-- C4: a composition containing a key outside the allowed component list
makes each of the three gas-composition estimators return the
unsupported-components ValueError whose message lists the offending
keys, before the normalization step (there is no hypothesis on the
total, so the error takes precedence over the zero-total error); the
final conjunct characterizes the listed keys as exactly the keys of the
composition outside the allowed list. -/
theorem C4_unsupported_component_errors (comp : List (String × ℚ)) (limit : Option ℚ) :
    (unsupportedComponents astm_allowed comp ≠ [] →
      component_uncertainty_from_ASTM_D1945 comp =
        Except.error
          (unsupportedMessage (unsupportedComponents astm_allowed comp) astm_allowed)) ∧
    (unsupportedComponents norsok_allowed comp ≠ [] →
      component_uncertainty_from_norsok_I106 comp =
        Except.error
          (unsupportedMessage (unsupportedComponents norsok_allowed comp) norsok_allowed)) ∧
    (unsupportedComponents haagenvik_allowed comp ≠ [] →
      component_uncertainty_from_haagenvik2024 comp limit =
        Except.error
          (unsupportedMessage (unsupportedComponents haagenvik_allowed comp) haagenvik_allowed)) ∧
    (∀ allowed : List String, ∀ k : String,
      k ∈ unsupportedComponents allowed comp ↔ k ∈ keysOf comp ∧ ¬ k ∈ allowed) :=
  ⟨ASTM_error_of_unsupported comp, norsok_error_of_unsupported comp,
   haagenvik_error_of_unsupported comp limit,
   fun allowed k => mem_unsupportedComponents allowed comp k⟩

/-- Witness for C4: the composition holding only the unsupported key X2
(with value 0, so the total is zero and the unsupported error is seen to
fire before the zero-total check) makes all three estimators return the
unsupported-components error. -/
theorem C4_unsupported_component_errors_witness :
    unsupportedComponents astm_allowed [("X2", (0 : ℚ))] ≠ [] ∧
    sumVals [("X2", (0 : ℚ))] = 0 ∧
    component_uncertainty_from_ASTM_D1945 [("X2", (0 : ℚ))] =
      Except.error
        (unsupportedMessage (unsupportedComponents astm_allowed [("X2", (0 : ℚ))])
          astm_allowed) ∧
    component_uncertainty_from_norsok_I106 [("X2", (0 : ℚ))] =
      Except.error
        (unsupportedMessage (unsupportedComponents norsok_allowed [("X2", (0 : ℚ))])
          norsok_allowed) ∧
    component_uncertainty_from_haagenvik2024 [("X2", (0 : ℚ))] Option.none =
      Except.error
        (unsupportedMessage (unsupportedComponents haagenvik_allowed [("X2", (0 : ℚ))])
          haagenvik_allowed) :=
  ⟨by decide, by simp [sumVals],
   (C4_unsupported_component_errors [("X2", (0 : ℚ))] Option.none).1 (by decide),
   (C4_unsupported_component_errors [("X2", (0 : ℚ))] Option.none).2.1 (by decide),
   (C4_unsupported_component_errors [("X2", (0 : ℚ))] Option.none).2.2.1 (by decide)⟩

/-- C8: for a composition of supported components, all three estimators
raise the zero-total ValueError exactly when the values sum to zero
(returning no partial result), and otherwise succeed with means equal to
the inputs rescaled by 100/total, which sum to 100. -/
theorem C8_normalization_and_zero_total (comp : List (String × ℚ)) (limit : Option ℚ)
    (hs1 : unsupportedComponents astm_allowed comp = [])
    (hs2 : unsupportedComponents norsok_allowed comp = [])
    (hs3 : unsupportedComponents haagenvik_allowed comp = []) :
    (sumVals comp = 0 →
      component_uncertainty_from_ASTM_D1945 comp = Except.error zeroTotalMessage ∧
      component_uncertainty_from_norsok_I106 comp = Except.error zeroTotalMessage ∧
      component_uncertainty_from_haagenvik2024 comp limit = Except.error zeroTotalMessage) ∧
    (sumVals comp ≠ 0 →
      ∃ r1 r2 r3,
        component_uncertainty_from_ASTM_D1945 comp = Except.ok r1 ∧
        component_uncertainty_from_norsok_I106 comp = Except.ok r2 ∧
        component_uncertainty_from_haagenvik2024 comp limit = Except.ok r3 ∧
        r1.mean = normalizeComposition comp ∧
        r2.mean = normalizeComposition comp ∧
        r3.mean = normalizeComposition comp ∧
        (∀ k v, getVal? comp k = Option.some v →
          getVal? r1.mean k = Option.some (v / sumVals comp * 100)) ∧
        sumVals r1.mean = 100) := by
  constructor
  · intro h0
    exact ⟨ASTM_error_of_zero comp hs1 h0, norsok_error_of_zero comp hs2 h0,
           haagenvik_error_of_zero comp limit hs3 h0⟩
  · intro hne
    refine ⟨astm_ok comp, norsok_ok comp, hag_ok comp limit,
      ASTM_ok_of_supported comp hs1 hne, norsok_ok_of_supported comp hs2 hne,
      haagenvik_ok_of_supported comp limit hs3 hne, rfl, rfl, rfl, ?_, ?_⟩
    · intro k v hv
      have h := getVal?_map_pair comp (fun _ w => w / sumVals comp * 100) k
      rw [hv] at h
      show getVal? (normalizeComposition comp) k = _
      rw [normalizeComposition]
      simpa using h
    · show sumVals (normalizeComposition comp) = 100
      exact sumVals_normalize comp hne

/-- Witness for C8 at the composition C1 = 70, C3 = 30 (already summing
to 100, total nonzero). -/
theorem C8_normalization_and_zero_total_witness :
    unsupportedComponents astm_allowed [("C1", (70 : ℚ)), ("C3", 30)] = [] ∧
    unsupportedComponents norsok_allowed [("C1", (70 : ℚ)), ("C3", 30)] = [] ∧
    unsupportedComponents haagenvik_allowed [("C1", (70 : ℚ)), ("C3", 30)] = [] ∧
    ((sumVals [("C1", (70 : ℚ)), ("C3", 30)] = 0 →
      component_uncertainty_from_ASTM_D1945 [("C1", (70 : ℚ)), ("C3", 30)] =
        Except.error zeroTotalMessage ∧
      component_uncertainty_from_norsok_I106 [("C1", (70 : ℚ)), ("C3", 30)] =
        Except.error zeroTotalMessage ∧
      component_uncertainty_from_haagenvik2024 [("C1", (70 : ℚ)), ("C3", 30)] Option.none =
        Except.error zeroTotalMessage) ∧
    (sumVals [("C1", (70 : ℚ)), ("C3", 30)] ≠ 0 →
      ∃ r1 r2 r3,
        component_uncertainty_from_ASTM_D1945 [("C1", (70 : ℚ)), ("C3", 30)] =
          Except.ok r1 ∧
        component_uncertainty_from_norsok_I106 [("C1", (70 : ℚ)), ("C3", 30)] =
          Except.ok r2 ∧
        component_uncertainty_from_haagenvik2024 [("C1", (70 : ℚ)), ("C3", 30)] Option.none =
          Except.ok r3 ∧
        r1.mean = normalizeComposition [("C1", (70 : ℚ)), ("C3", 30)] ∧
        r2.mean = normalizeComposition [("C1", (70 : ℚ)), ("C3", 30)] ∧
        r3.mean = normalizeComposition [("C1", (70 : ℚ)), ("C3", 30)] ∧
        (∀ k v, getVal? [("C1", (70 : ℚ)), ("C3", 30)] k = Option.some v →
          getVal? r1.mean k =
            Option.some (v / sumVals [("C1", (70 : ℚ)), ("C3", 30)] * 100)) ∧
        sumVals r1.mean = 100)) :=
  ⟨by decide, by decide, by decide,
   C8_normalization_and_zero_total [("C1", (70 : ℚ)), ("C3", 30)] Option.none
     (by decide) (by decide) (by decide)⟩

/-- C5: for a supported composition with nonzero total each estimator
succeeds, the returned record has exactly the fields mean,
standard_uncertainty, min, max and distribution (the shape of
`CompositionUncertainty`), and every input component is assigned
distribution normal, min 0.0 and max 100.0. -/
theorem C5_output_fragment_shape (comp : List (String × ℚ)) (limit : Option ℚ)
    (hs1 : unsupportedComponents astm_allowed comp = [])
    (hs2 : unsupportedComponents norsok_allowed comp = [])
    (hs3 : unsupportedComponents haagenvik_allowed comp = [])
    (hne : sumVals comp ≠ 0) :
    ∃ (r1 r2 : CompositionUncertainty ℚ) (r3 : CompositionUncertainty ℝ),
      component_uncertainty_from_ASTM_D1945 comp = Except.ok r1 ∧
      component_uncertainty_from_norsok_I106 comp = Except.ok r2 ∧
      component_uncertainty_from_haagenvik2024 comp limit = Except.ok r3 ∧
      ∀ k ∈ keysOf comp,
        getVal? r1.distribution k = Option.some "normal" ∧
        getVal? r1.min k = Option.some 0 ∧
        getVal? r1.max k = Option.some 100 ∧
        getVal? r2.distribution k = Option.some "normal" ∧
        getVal? r2.min k = Option.some 0 ∧
        getVal? r2.max k = Option.some 100 ∧
        getVal? r3.distribution k = Option.some "normal" ∧
        getVal? r3.min k = Option.some 0 ∧
        getVal? r3.max k = Option.some 100 := by
  refine ⟨astm_ok comp, norsok_ok comp, hag_ok comp limit,
    ASTM_ok_of_supported comp hs1 hne, norsok_ok_of_supported comp hs2 hne,
    haagenvik_ok_of_supported comp limit hs3 hne, ?_⟩
  intro k hk
  have hk2 : k ∈ keysOf (normalizeComposition comp) := by
    rw [keysOf_normalize]; exact hk
  simp only [astm_ok, norsok_ok, hag_ok]
  exact ⟨getVal?_const_map _ _ _ hk2, getVal?_const_map _ _ _ hk2,
    getVal?_const_map _ _ _ hk2, getVal?_const_map _ _ _ hk2,
    getVal?_const_map _ _ _ hk2, getVal?_const_map _ _ _ hk2,
    getVal?_const_map _ _ _ hk2, getVal?_const_map _ _ _ hk2,
    getVal?_const_map _ _ _ hk2⟩

/-- Witness for C5 at the composition C1 = 85, C2 = 10, N2 = 5. -/
theorem C5_output_fragment_shape_witness :
    unsupportedComponents astm_allowed [("C1", (85 : ℚ)), ("C2", 10), ("N2", 5)] = [] ∧
    unsupportedComponents norsok_allowed [("C1", (85 : ℚ)), ("C2", 10), ("N2", 5)] = [] ∧
    unsupportedComponents haagenvik_allowed [("C1", (85 : ℚ)), ("C2", 10), ("N2", 5)] = [] ∧
    sumVals [("C1", (85 : ℚ)), ("C2", 10), ("N2", 5)] ≠ 0 ∧
    (∃ (r1 r2 : CompositionUncertainty ℚ) (r3 : CompositionUncertainty ℝ),
      component_uncertainty_from_ASTM_D1945 [("C1", (85 : ℚ)), ("C2", 10), ("N2", 5)] =
        Except.ok r1 ∧
      component_uncertainty_from_norsok_I106 [("C1", (85 : ℚ)), ("C2", 10), ("N2", 5)] =
        Except.ok r2 ∧
      component_uncertainty_from_haagenvik2024 [("C1", (85 : ℚ)), ("C2", 10), ("N2", 5)]
        Option.none = Except.ok r3 ∧
      ∀ k ∈ keysOf [("C1", (85 : ℚ)), ("C2", 10), ("N2", 5)],
        getVal? r1.distribution k = Option.some "normal" ∧
        getVal? r1.min k = Option.some 0 ∧
        getVal? r1.max k = Option.some 100 ∧
        getVal? r2.distribution k = Option.some "normal" ∧
        getVal? r2.min k = Option.some 0 ∧
        getVal? r2.max k = Option.some 100 ∧
        getVal? r3.distribution k = Option.some "normal" ∧
        getVal? r3.min k = Option.some 0 ∧
        getVal? r3.max k = Option.some 100) :=
  ⟨by decide, by decide, by decide, by norm_num [sumVals],
   C5_output_fragment_shape [("C1", (85 : ℚ)), ("C2", 10), ("N2", 5)] Option.none
     (by decide) (by decide) (by decide) (by norm_num [sumVals])⟩

/-- C10: for each of the three estimators separately, on every
composition valid for that estimator (supported by its own component
list, nonzero total), each of the five per-component dictionaries
returned has exactly the key list of the input composition; the NORSOK
conjunct therefore covers its full 21-component GERG domain, not only
the 14-component ASTM list. -/
theorem C10_keys_preserved (comp : List (String × ℚ)) (limit : Option ℚ)
    (hne : sumVals comp ≠ 0) :
    (unsupportedComponents astm_allowed comp = [] →
      ∃ r1 : CompositionUncertainty ℚ,
        component_uncertainty_from_ASTM_D1945 comp = Except.ok r1 ∧
        (keysOf r1.mean = keysOf comp ∧ keysOf r1.standard_uncertainty = keysOf comp ∧
         keysOf r1.min = keysOf comp ∧ keysOf r1.max = keysOf comp ∧
         keysOf r1.distribution = keysOf comp)) ∧
    (unsupportedComponents norsok_allowed comp = [] →
      ∃ r2 : CompositionUncertainty ℚ,
        component_uncertainty_from_norsok_I106 comp = Except.ok r2 ∧
        (keysOf r2.mean = keysOf comp ∧ keysOf r2.standard_uncertainty = keysOf comp ∧
         keysOf r2.min = keysOf comp ∧ keysOf r2.max = keysOf comp ∧
         keysOf r2.distribution = keysOf comp)) ∧
    (unsupportedComponents haagenvik_allowed comp = [] →
      ∃ r3 : CompositionUncertainty ℝ,
        component_uncertainty_from_haagenvik2024 comp limit = Except.ok r3 ∧
        (keysOf r3.mean = keysOf comp ∧ keysOf r3.standard_uncertainty = keysOf comp ∧
         keysOf r3.min = keysOf comp ∧ keysOf r3.max = keysOf comp ∧
         keysOf r3.distribution = keysOf comp)) := by
  refine ⟨?_, ?_, ?_⟩
  · intro hs
    refine ⟨astm_ok comp, ASTM_ok_of_supported comp hs hne, ?_⟩
    simp only [astm_ok]
    exact ⟨keysOf_normalize comp,
      (keysOf_map_keyed _ _).trans (keysOf_normalize comp),
      (keysOf_map_keyed _ _).trans (keysOf_normalize comp),
      (keysOf_map_keyed _ _).trans (keysOf_normalize comp),
      (keysOf_map_keyed _ _).trans (keysOf_normalize comp)⟩
  · intro hs
    refine ⟨norsok_ok comp, norsok_ok_of_supported comp hs hne, ?_⟩
    simp only [norsok_ok]
    exact ⟨keysOf_normalize comp,
      (keysOf_map_keyed _ _).trans (keysOf_normalize comp),
      (keysOf_map_keyed _ _).trans (keysOf_normalize comp),
      (keysOf_map_keyed _ _).trans (keysOf_normalize comp),
      (keysOf_map_keyed _ _).trans (keysOf_normalize comp)⟩
  · intro hs
    refine ⟨hag_ok comp limit, haagenvik_ok_of_supported comp limit hs hne, ?_⟩
    simp only [hag_ok]
    exact ⟨keysOf_normalize comp,
      (keysOf_map_keyed _ _).trans (keysOf_normalize comp),
      (keysOf_map_keyed _ _).trans (keysOf_normalize comp),
      (keysOf_map_keyed _ _).trans (keysOf_normalize comp),
      (keysOf_map_keyed _ _).trans (keysOf_normalize comp)⟩

/-- Witness for C10: the NORSOK conjunct at the composition
H2 = 50, He = 50 (valid for NORSOK but outside the ASTM list), and the
ASTM and Hagenvik conjuncts at C1 = 85, C2 = 10, N2 = 5. -/
theorem C10_keys_preserved_witness :
    sumVals [("H2", (50 : ℚ)), ("He", 50)] ≠ 0 ∧
    unsupportedComponents norsok_allowed [("H2", (50 : ℚ)), ("He", 50)] = [] ∧
    (∃ r2 : CompositionUncertainty ℚ,
      component_uncertainty_from_norsok_I106 [("H2", (50 : ℚ)), ("He", 50)] =
        Except.ok r2 ∧
      (keysOf r2.mean = keysOf [("H2", (50 : ℚ)), ("He", 50)] ∧
       keysOf r2.standard_uncertainty = keysOf [("H2", (50 : ℚ)), ("He", 50)] ∧
       keysOf r2.min = keysOf [("H2", (50 : ℚ)), ("He", 50)] ∧
       keysOf r2.max = keysOf [("H2", (50 : ℚ)), ("He", 50)] ∧
       keysOf r2.distribution = keysOf [("H2", (50 : ℚ)), ("He", 50)])) ∧
    sumVals [("C1", (85 : ℚ)), ("C2", 10), ("N2", 5)] ≠ 0 ∧
    unsupportedComponents astm_allowed [("C1", (85 : ℚ)), ("C2", 10), ("N2", 5)] = [] ∧
    unsupportedComponents haagenvik_allowed [("C1", (85 : ℚ)), ("C2", 10), ("N2", 5)] = [] ∧
    (∃ r1 : CompositionUncertainty ℚ,
      component_uncertainty_from_ASTM_D1945 [("C1", (85 : ℚ)), ("C2", 10), ("N2", 5)] =
        Except.ok r1 ∧
      (keysOf r1.mean = keysOf [("C1", (85 : ℚ)), ("C2", 10), ("N2", 5)] ∧
       keysOf r1.standard_uncertainty = keysOf [("C1", (85 : ℚ)), ("C2", 10), ("N2", 5)] ∧
       keysOf r1.min = keysOf [("C1", (85 : ℚ)), ("C2", 10), ("N2", 5)] ∧
       keysOf r1.max = keysOf [("C1", (85 : ℚ)), ("C2", 10), ("N2", 5)] ∧
       keysOf r1.distribution = keysOf [("C1", (85 : ℚ)), ("C2", 10), ("N2", 5)])) ∧
    (∃ r3 : CompositionUncertainty ℝ,
      component_uncertainty_from_haagenvik2024 [("C1", (85 : ℚ)), ("C2", 10), ("N2", 5)]
        Option.none = Except.ok r3 ∧
      (keysOf r3.mean = keysOf [("C1", (85 : ℚ)), ("C2", 10), ("N2", 5)] ∧
       keysOf r3.standard_uncertainty = keysOf [("C1", (85 : ℚ)), ("C2", 10), ("N2", 5)] ∧
       keysOf r3.min = keysOf [("C1", (85 : ℚ)), ("C2", 10), ("N2", 5)] ∧
       keysOf r3.max = keysOf [("C1", (85 : ℚ)), ("C2", 10), ("N2", 5)] ∧
       keysOf r3.distribution = keysOf [("C1", (85 : ℚ)), ("C2", 10), ("N2", 5)])) :=
  ⟨by norm_num [sumVals], by decide,
   (C10_keys_preserved [("H2", (50 : ℚ)), ("He", 50)] Option.none
     (by norm_num [sumVals])).2.1 (by decide),
   by norm_num [sumVals], by decide, by decide,
   (C10_keys_preserved [("C1", (85 : ℚ)), ("C2", 10), ("N2", 5)] Option.none
     (by norm_num [sumVals])).1 (by decide),
   (C10_keys_preserved [("C1", (85 : ℚ)), ("C2", 10), ("N2", 5)] Option.none
     (by norm_num [sumVals])).2.2 (by decide)⟩

/-- C9: with a non-None lower uncertainty limit, every component
uncertainty returned by the Hagenvik 2024 estimator is at least the
limit (including methane C1 and zero-concentration components); without
a limit, C1 and zero-concentration components receive exactly 0.0. -/
theorem C9_haagenvik_lower_limit (comp : List (String × ℚ)) (l : ℚ)
    (hs : unsupportedComponents haagenvik_allowed comp = [])
    (hne : sumVals comp ≠ 0) :
    (∃ r, component_uncertainty_from_haagenvik2024 comp (Option.some l) = Except.ok r ∧
      ∀ k ∈ keysOf comp, ∃ u, getVal? r.standard_uncertainty k = Option.some u ∧
        (l : ℝ) ≤ u) ∧
    (∃ r, component_uncertainty_from_haagenvik2024 comp Option.none = Except.ok r ∧
      ("C1" ∈ keysOf comp →
        getVal? r.standard_uncertainty "C1" = Option.some 0) ∧
      (∀ k, getVal? comp k = Option.some 0 →
        getVal? r.standard_uncertainty k = Option.some 0)) := by
  constructor
  · refine ⟨hag_ok comp (Option.some l),
      haagenvik_ok_of_supported comp (Option.some l) hs hne, ?_⟩
    intro k hk
    have hk2 : k ∈ keysOf (normalizeComposition comp) := by
      rw [keysOf_normalize]; exact hk
    obtain ⟨w, hw⟩ := getVal?_mem (normalizeComposition comp) k hk2
    have h := getVal?_map_pair (normalizeComposition comp)
      (fun c v => applyLowerLimit (Option.some l) (hagBaseU c v)) k
    rw [hw] at h
    refine ⟨applyLowerLimit (Option.some l) (hagBaseU k w), ?_, le_applyLowerLimit l _⟩
    show getVal? ((normalizeComposition comp).map
      (fun p => (p.1, applyLowerLimit (Option.some l) (hagBaseU p.1 p.2)))) k = _
    simpa using h
  · refine ⟨hag_ok comp Option.none,
      haagenvik_ok_of_supported comp Option.none hs hne, ?_, ?_⟩
    · intro hk
      have hk2 : "C1" ∈ keysOf (normalizeComposition comp) := by
        rw [keysOf_normalize]; exact hk
      obtain ⟨w, hw⟩ := getVal?_mem (normalizeComposition comp) "C1" hk2
      have h := getVal?_map_pair (normalizeComposition comp)
        (fun c v => applyLowerLimit Option.none (hagBaseU c v)) "C1"
      rw [hw] at h
      show getVal? ((normalizeComposition comp).map
        (fun p => (p.1, applyLowerLimit Option.none (hagBaseU p.1 p.2)))) "C1" = _
      rw [h]
      simp [applyLowerLimit_none, hagBaseU_C1]
    · intro k hk0
      have hnorm : getVal? (normalizeComposition comp) k = Option.some 0 := by
        have h := getVal?_map_pair comp (fun _ w => w / sumVals comp * 100) k
        rw [hk0] at h
        show getVal? (normalizeComposition comp) k = _
        rw [normalizeComposition]
        simpa using h
      have h := getVal?_map_pair (normalizeComposition comp)
        (fun c v => applyLowerLimit Option.none (hagBaseU c v)) k
      rw [hnorm] at h
      show getVal? ((normalizeComposition comp).map
        (fun p => (p.1, applyLowerLimit Option.none (hagBaseU p.1 p.2)))) k = _
      rw [h]
      simp [applyLowerLimit_none, hagBaseU_zero]

/-- Witness for C9 at the composition C1 = 85, C2 = 10, nC6 = 0 and
lower limit 0.01. -/
theorem C9_haagenvik_lower_limit_witness :
    unsupportedComponents haagenvik_allowed [("C1", (85 : ℚ)), ("C2", 10), ("nC6", 0)] = [] ∧
    sumVals [("C1", (85 : ℚ)), ("C2", 10), ("nC6", 0)] ≠ 0 ∧
    ((∃ r, component_uncertainty_from_haagenvik2024 [("C1", (85 : ℚ)), ("C2", 10), ("nC6", 0)]
        (Option.some (1 / 100)) = Except.ok r ∧
      ∀ k ∈ keysOf [("C1", (85 : ℚ)), ("C2", 10), ("nC6", 0)],
        ∃ u, getVal? r.standard_uncertainty k = Option.some u ∧
          ((1 / 100 : ℚ) : ℝ) ≤ u) ∧
    (∃ r, component_uncertainty_from_haagenvik2024 [("C1", (85 : ℚ)), ("C2", 10), ("nC6", 0)]
        Option.none = Except.ok r ∧
      ("C1" ∈ keysOf [("C1", (85 : ℚ)), ("C2", 10), ("nC6", 0)] →
        getVal? r.standard_uncertainty "C1" = Option.some 0) ∧
      (∀ k, getVal? [("C1", (85 : ℚ)), ("C2", 10), ("nC6", 0)] k = Option.some 0 →
        getVal? r.standard_uncertainty k = Option.some 0))) :=
  ⟨by decide, by norm_num [sumVals],
   C9_haagenvik_lower_limit [("C1", (85 : ℚ)), ("C2", 10), ("nC6", 0)] (1 / 100)
     (by decide) (by norm_num [sumVals])⟩

/-!  Lemmas and claims about the modelled core `uncertainty_functions`. -/

/-- C7: the analytical path involves no randomness: the modelled
`calculate_uncertainty` is a pure function of the input set, the
calculation function and its numeric parameters, so two invocations
with the same arguments return identical results. -/
theorem C7_analytical_determinism (data : List (String × InputSpec))
    (fn : (String → ℚ) → List (String × ℚ)) (h k : ℚ) :
    calculate_uncertainty data fn h k = calculate_uncertainty data fn h k := rfl

/-- C3: `combined_standard_uncertainty u ci` equals the square root of
the sum over the entries of u of the squared products of sensitivity
coefficient and uncertainty, and with ci omitted every sensitivity
coefficient defaults to 1.0, giving the square root of the sum of the
squared uncertainties. -/
theorem C3_combined_standard_uncertainty_formula (u ci : List (String × ℚ)) :
    combined_standard_uncertainty u (Option.some ci) =
      Real.sqrt (((u.map (fun p => ((getVal? ci p.1).getD 1 * p.2) ^ 2)).sum : ℚ) : ℝ) ∧
    combined_standard_uncertainty u Option.none =
      Real.sqrt (((u.map (fun p => p.2 ^ 2)).sum : ℚ) : ℝ) := by
  constructor
  · rfl
  · have hmap : u.map (fun p =>
        ((getVal? (u.map (fun q => (q.1, (1 : ℚ)))) p.1).getD 1 * p.2) ^ 2) =
        u.map (fun p => p.2 ^ 2) := by
      refine List.map_congr_left ?_
      intro p hp
      rw [getVal?_const_map u (1 : ℚ) p.1 (List.mem_map_of_mem _ hp)]
      simp
    show Real.sqrt (((u.map (fun p =>
        ((getVal? (u.map (fun q => (q.1, (1 : ℚ)))) p.1).getD 1 * p.2) ^ 2)).sum : ℚ) : ℝ) = _
    rw [hmap]

/-- C6: an input whose distribution is none is recorded unchanged (equal
to its mean) in every Monte Carlo trial's used values, and is excluded
from the numerical differentiation, contributing no sensitivity
coefficient for any output. -/
theorem C6_none_distribution_fixed (data : List (String × InputSpec))
    (fn : (String → ℚ) → List (String × ℚ)) (sampler : InputSpec → ℕ → ℚ)
    (n : ℕ) (h : ℚ) (i : String) (s : InputSpec)
    (hnd : (keysOf data).Nodup) (hi : getVal? data i = Option.some s)
    (hdist : s.distribution = DistFamily.none) :
    (∀ trial ∈ monte_carlo_simulation data fn n sampler,
      getVal? trial.1 i = Option.some s.mean) ∧
    (∀ out ∈ compute_sensitivities data fn h, ¬ i ∈ keysOf out.2) := by
  constructor
  · intro trial htrial
    rw [monte_carlo_simulation] at htrial
    obtain ⟨t, ht, hteq⟩ := List.mem_map.1 htrial
    have hmap := getVal?_map_pair data (fun _ sp => draw sampler sp t) i
    rw [hi] at hmap
    have h1 : getVal? trial.1 i = Option.some (draw sampler s t) := by
      rw [← hteq]
      show getVal? (data.map (fun p => (p.1, draw sampler p.2 t))) i = _
      simpa using hmap
    rw [h1]
    have : draw sampler s t = s.mean := by
      rw [draw, hdist]
    rw [this]
  · intro out hout
    simp only [compute_sensitivities] at hout
    obtain ⟨o, ho, hoeq⟩ := List.mem_map.1 hout
    intro hk
    have hk2 : i ∈ keysOf (variedInputs data) := by
      rw [← hoeq] at hk
      simpa [keysOf_map_keyed] using hk
    obtain ⟨q, hq, hq1⟩ := List.mem_map.1 hk2
    have hqd : q ∈ data ∧ q.2.distribution ≠ DistFamily.none := by
      have := List.mem_filter.1 hq
      simpa using this
    have : getVal? data i = Option.some q.2 := by
      rw [← hq1]
      exact getVal?_eq_of_mem_nodup data q.1 q.2 hnd hqd.1
    rw [hi] at this
    have hsq : s = q.2 := by injection this
    exact hqd.2 (by rw [← hsq]; exact hdist)

/-- Witness for C6 at the two-input set with the fixed input b, three
trials, the constant-zero sampler and step 1/1000. -/
theorem C6_none_distribution_fixed_witness :
    (keysOf dataC6).Nodup ∧
    getVal? dataC6 "b" = Option.some specFixed ∧
    specFixed.distribution = DistFamily.none ∧
    (∀ trial ∈ monte_carlo_simulation dataC6 sumCalc 3 (fun _ _ => 0),
      getVal? trial.1 "b" = Option.some specFixed.mean) ∧
    (∀ out ∈ compute_sensitivities dataC6 sumCalc (1 / 1000), ¬ "b" ∈ keysOf out.2) := by
  have h := C6_none_distribution_fixed dataC6 sumCalc (fun _ _ => 0) 3 (1 / 1000)
    "b" specFixed (by decide) rfl rfl
  exact ⟨by decide, rfl, rfl, h.1, h.2⟩

theorem perturbationStep_ne_zero (h m : ℚ) (hh : h ≠ 0) : perturbationStep h m ≠ 0 := by
  unfold perturbationStep
  by_cases hm : m = 0
  · rw [if_pos hm]; exact hh
  · rw [if_neg hm]; exact mul_ne_zero hh (abs_ne_zero.2 hm)

theorem calculate_uncertainty_ok (data : List (String × InputSpec))
    (fn : (String → ℚ) → List (String × ℚ)) (h k : ℚ) (us : List (String × ℚ))
    (hres : resolveUncertainties data = Except.ok us) :
    ∃ r, calculate_uncertainty data fn h k = Except.ok r ∧
      r.u = (fn (meansOf data)).map (fun p =>
        (p.1, Real.sqrt ((combinedVariance data fn h us p.1 : ℚ) : ℝ))) ∧
      r.U_perc = (fn (meansOf data)).map (fun p =>
        (p.1, 100 * ((k : ℝ) * Real.sqrt ((combinedVariance data fn h us p.1 : ℚ) : ℝ)) /
          |(p.2 : ℝ)|)) := by
  refine ⟨uncResultOf data fn h k us, ?_, rfl, rfl⟩
  unfold calculate_uncertainty
  rw [hres]

theorem cd_idCalc (m : String → ℚ) (d : ℚ) (hd : d ≠ 0) :
    central_difference idCalc m "x" d "y" = 1 := by
  show ((m "x" + d) - (m "x" - d)) / (2 * d) = 1
  field_simp
  ring

theorem cd_volume_vals (d : ℚ) (hd : d ≠ 0) :
    central_difference calculate_volume (meansOf data01) "L" d "volume" = 4 ∧
    central_difference calculate_volume (meansOf data01) "W" d "volume" = 4 ∧
    central_difference calculate_volume (meansOf data01) "D" d "volume" = 4 ∧
    central_difference calculate_volume (meansOf data01) "L" d "area" = 2 ∧
    central_difference calculate_volume (meansOf data01) "W" d "area" = 2 ∧
    central_difference calculate_volume (meansOf data01) "D" d "area" = 0 := by
  refine ⟨?_, ?_, ?_, ?_, ?_, ?_⟩
  · show ((2 + d) * 2 * 2 - (2 - d) * 2 * 2) / (2 * d) = 4
    field_simp; ring
  · show (2 * (2 + d) * 2 - 2 * (2 - d) * 2) / (2 * d) = 4
    field_simp; ring
  · show (2 * 2 * (2 + d) - 2 * 2 * (2 - d)) / (2 * d) = 4
    field_simp; ring
  · show ((2 + d) * 2 - (2 - d) * 2) / (2 * d) = 2
    field_simp; ring
  · show (2 * (2 + d) - 2 * (2 - d)) / (2 * d) = 2
    field_simp; ring
  · show (2 * 2 - 2 * 2) / (2 * d) = 0
    norm_num

theorem variance_data01 (h : ℚ) (hh : h ≠ 0) :
    combinedVariance data01 calculate_volume h us01 "volume" = 2.24 ∧
    combinedVariance data01 calculate_volume h us01 "area" = 0.4 := by
  have hL := perturbationStep_ne_zero h (meansOf data01 "L") hh
  have hW := perturbationStep_ne_zero h (meansOf data01 "W") hh
  have hD := perturbationStep_ne_zero h (meansOf data01 "D") hh
  constructor
  · unfold combinedVariance us01 sensCoeff
    simp only [List.map_cons, List.map_nil, List.sum_cons, List.sum_nil]
    rw [(cd_volume_vals _ hL).1, (cd_volume_vals _ hW).2.1, (cd_volume_vals _ hD).2.2.1]
    norm_num
  · unfold combinedVariance us01 sensCoeff
    simp only [List.map_cons, List.map_nil, List.sum_cons, List.sum_nil]
    rw [(cd_volume_vals _ hL).2.2.2.1, (cd_volume_vals _ hW).2.2.2.2.1,
      (cd_volume_vals _ hD).2.2.2.2.2]
    norm_num

theorem sqrt_224_rounds : roundsTo (Real.sqrt ((2.24 : ℚ) : ℝ)) 14967 4 := by
  have hc : ((2.24 : ℚ) : ℝ) = 2.24 := by norm_num
  rw [hc]
  have hnn : (0 : ℝ) ≤ 2.24 := by norm_num
  have hs := Real.sq_sqrt hnn
  have hpos := Real.sqrt_nonneg (2.24 : ℝ)
  constructor
  · show (14967 : ℝ) - 1 / 2 ≤ Real.sqrt 2.24 * 10 ^ (4 : ℕ)
    nlinarith [hs, hpos]
  · show Real.sqrt 2.24 * 10 ^ (4 : ℕ) < (14967 : ℝ) + 1 / 2
    nlinarith [hs, hpos]

theorem Uperc_volume_rounds :
    roundsTo (100 * (((2 : ℚ) : ℝ) * Real.sqrt ((2.24 : ℚ) : ℝ)) / |((8 : ℚ) : ℝ)|)
      3742 2 := by
  have he : 100 * (((2 : ℚ) : ℝ) * Real.sqrt ((2.24 : ℚ) : ℝ)) / |((8 : ℚ) : ℝ)| =
      25 * Real.sqrt 2.24 := by
    have hc : ((2.24 : ℚ) : ℝ) = 2.24 := by norm_num
    rw [hc]
    have h8 : |((8 : ℚ) : ℝ)| = 8 := by norm_num
    rw [h8]
    push_cast
    ring
  rw [he]
  have hnn : (0 : ℝ) ≤ 2.24 := by norm_num
  have hs := Real.sq_sqrt hnn
  have hpos := Real.sqrt_nonneg (2.24 : ℝ)
  constructor
  · show (3742 : ℝ) - 1 / 2 ≤ 25 * Real.sqrt 2.24 * 10 ^ (2 : ℕ)
    nlinarith [hs, hpos]
  · show 25 * Real.sqrt 2.24 * 10 ^ (2 : ℕ) < (3742 : ℝ) + 1 / 2
    nlinarith [hs, hpos]

theorem sqrt_04_rounds : roundsTo (Real.sqrt ((0.4 : ℚ) : ℝ)) 6325 4 := by
  have hc : ((0.4 : ℚ) : ℝ) = 0.4 := by norm_num
  rw [hc]
  have hnn : (0 : ℝ) ≤ 0.4 := by norm_num
  have hs := Real.sq_sqrt hnn
  have hpos := Real.sqrt_nonneg (0.4 : ℝ)
  constructor
  · show (6325 : ℝ) - 1 / 2 ≤ Real.sqrt 0.4 * 10 ^ (4 : ℕ)
    nlinarith [hs, hpos]
  · show Real.sqrt 0.4 * 10 ^ (4 : ℕ) < (6325 : ℝ) + 1 / 2
    nlinarith [hs, hpos]

theorem Uperc_area_rounds :
    roundsTo (100 * (((2 : ℚ) : ℝ) * Real.sqrt ((0.4 : ℚ) : ℝ)) / |((4 : ℚ) : ℝ)|)
      3162 2 := by
  have he : 100 * (((2 : ℚ) : ℝ) * Real.sqrt ((0.4 : ℚ) : ℝ)) / |((4 : ℚ) : ℝ)| =
      50 * Real.sqrt 0.4 := by
    have hc : ((0.4 : ℚ) : ℝ) = 0.4 := by norm_num
    rw [hc]
    have h4 : |((4 : ℚ) : ℝ)| = 4 := by norm_num
    rw [h4]
    push_cast
    ring
  rw [he]
  have hnn : (0 : ℝ) ≤ 0.4 := by norm_num
  have hs := Real.sq_sqrt hnn
  have hpos := Real.sqrt_nonneg (0.4 : ℝ)
  constructor
  · show (3162 : ℝ) - 1 / 2 ≤ 50 * Real.sqrt 0.4 * 10 ^ (2 : ℕ)
    nlinarith [hs, hpos]
  · show 50 * Real.sqrt 0.4 * 10 ^ (2 : ℕ) < (3162 : ℝ) + 1 / 2
    nlinarith [hs, hpos]

/-- C2: for the volume/area test function with means 2, 2, 2 and
standard uncertainties 0.3, 0.1, 0.2 the analytical combiner yields a
volume standard uncertainty rounding to 1.4967 at 4 decimals, a volume
relative expanded uncertainty rounding to 37.42 at 2 decimals, an area
standard uncertainty rounding to 0.6325 at 4 decimals and an area
relative expanded uncertainty rounding to 31.62 at 2 decimals, for
every positive relative differentiation step. -/
theorem C2_volume_worked_example (h : ℚ) (hh : 0 < h) :
    ∃ r, calculate_uncertainty data01 calculate_volume h 2 = Except.ok r ∧
      (∃ x, getVal? r.u "volume" = Option.some x ∧ roundsTo x 14967 4) ∧
      (∃ x, getVal? r.U_perc "volume" = Option.some x ∧ roundsTo x 3742 2) ∧
      (∃ x, getVal? r.u "area" = Option.some x ∧ roundsTo x 6325 4) ∧
      (∃ x, getVal? r.U_perc "area" = Option.some x ∧ roundsTo x 3162 2) := by
  obtain ⟨r, hr, hu, hUp⟩ := calculate_uncertainty_ok data01 calculate_volume h 2 us01 rfl
  obtain ⟨hvv, hva⟩ := variance_data01 h (ne_of_gt hh)
  have hmL : meansOf data01 "L" = 2 := rfl
  have hmW : meansOf data01 "W" = 2 := rfl
  have hmD : meansOf data01 "D" = 2 := rfl
  have hbase : calculate_volume (meansOf data01) = [("volume", 8), ("area", 4)] := by
    show [("volume", meansOf data01 "L" * meansOf data01 "W" * meansOf data01 "D"),
          ("area", meansOf data01 "L" * meansOf data01 "W")] = _
    rw [hmL, hmW, hmD]
    norm_num
  rw [hbase] at hu hUp
  simp only [List.map_cons, List.map_nil] at hu hUp
  rw [hvv, hva] at hu hUp
  refine ⟨r, hr, ⟨_, ?_, sqrt_224_rounds⟩, ⟨_, ?_, Uperc_volume_rounds⟩,
    ⟨_, ?_, sqrt_04_rounds⟩, ⟨_, ?_, Uperc_area_rounds⟩⟩
  · rw [hu]; rfl
  · rw [hUp]; rfl
  · rw [hu]; rfl
  · rw [hUp]; rfl

/-- Witness for C2 at the step h = 1/1000. -/
theorem C2_volume_worked_example_witness :
    (0 : ℚ) < 1 / 1000 ∧
    (∃ r, calculate_uncertainty data01 calculate_volume (1 / 1000) 2 = Except.ok r ∧
      (∃ x, getVal? r.u "volume" = Option.some x ∧ roundsTo x 14967 4) ∧
      (∃ x, getVal? r.U_perc "volume" = Option.some x ∧ roundsTo x 3742 2) ∧
      (∃ x, getVal? r.u "area" = Option.some x ∧ roundsTo x 6325 4) ∧
      (∃ x, getVal? r.U_perc "area" = Option.some x ∧ roundsTo x 3162 2)) :=
  ⟨by norm_num, C2_volume_worked_example (1 / 1000) (by norm_num)⟩

/-- C1: when both the absolute and the percentage standard uncertainty
of an input are numeric, the effective standard uncertainty used by
calculate_uncertainty is the larger of the absolute value and
percentage/100 times the mean; for mean 2.0, absolute uncertainty 0.001
and percentage 5 the effective value is 0.1 (not 0.001), both at the
resolution step and in the combined uncertainty of the identity
function. -/
theorem C1_larger_of_rule (s : InputSpec) (a p : ℚ)
    (ha : s.standard_uncertainty = Option.some a)
    (hp : s.standard_uncertainty_percent = Option.some p) :
    effective_standard_uncertainty s = Option.some (max a (p / 100 * s.mean)) ∧
    effective_standard_uncertainty largerOfInput = Option.some 0.1 ∧
    (0.1 : ℚ) ≠ 0.001 ∧
    resolveUncertainties dataLarger = Except.ok [("x", 0.1)] ∧
    (∀ h : ℚ, 0 < h → ∃ r,
      calculate_uncertainty dataLarger idCalc h 2 = Except.ok r ∧
      getVal? r.u "y" = Option.some 0.1) := by
  have hmax : max (0.001 : ℚ) (5 / 100 * 2) = 0.1 := by
    rw [max_eq_right (by norm_num : (0.001 : ℚ) ≤ 5 / 100 * 2)]
    norm_num
  refine ⟨?_, ?_, by norm_num, ?_, ?_⟩
  · simp [effective_standard_uncertainty, ha, hp]
  · have h2 : effective_standard_uncertainty largerOfInput =
        Option.some (max (0.001 : ℚ) (5 / 100 * 2)) := rfl
    rw [h2, hmax]
  · have h4 : resolveUncertainties dataLarger =
        Except.ok [("x", max (0.001 : ℚ) (5 / 100 * 2))] := rfl
    rw [h4, hmax]
  · intro h hh
    have h4 : resolveUncertainties dataLarger =
        Except.ok [("x", max (0.001 : ℚ) (5 / 100 * 2))] := rfl
    have h4b : resolveUncertainties dataLarger = Except.ok [("x", (0.1 : ℚ))] := by
      rw [h4, hmax]
    obtain ⟨r, hr, hu, _⟩ :=
      calculate_uncertainty_ok dataLarger idCalc h 2 [("x", (0.1 : ℚ))] h4b
    have hcd : sensCoeff dataLarger idCalc h "x" "y" = 1 := by
      unfold sensCoeff
      exact cd_idCalc (meansOf dataLarger) _
        (perturbationStep_ne_zero h (meansOf dataLarger "x") (ne_of_gt hh))
    have hvar : combinedVariance dataLarger idCalc h [("x", (0.1 : ℚ))] "y" = 1 / 100 := by
      unfold combinedVariance
      simp only [List.map_cons, List.map_nil, List.sum_cons, List.sum_nil]
      rw [hcd]
      norm_num
    have hm : meansOf dataLarger "x" = 2 := rfl
    have hbase : idCalc (meansOf dataLarger) = [("y", 2)] := by
      show [("y", meansOf dataLarger "x")] = _
      rw [hm]
    rw [hbase] at hu
    simp only [List.map_cons, List.map_nil] at hu
    rw [hvar] at hu
    have hs : Real.sqrt ((1 / 100 : ℚ) : ℝ) = 0.1 := by
      have hc : ((1 / 100 : ℚ) : ℝ) = (0.1 : ℝ) ^ 2 := by norm_num
      rw [hc, Real.sqrt_sq (by norm_num)]
    refine ⟨r, hr, ?_⟩
    rw [hu]
    show Option.some (Real.sqrt ((1 / 100 : ℚ) : ℝ)) = Option.some (0.1 : ℝ)
    rw [hs]

/-- Witness for C1 at the input with mean 2.0, absolute uncertainty
0.001 and percentage uncertainty 5. -/
theorem C1_larger_of_rule_witness :
    largerOfInput.standard_uncertainty = Option.some 0.001 ∧
    largerOfInput.standard_uncertainty_percent = Option.some 5 ∧
    (effective_standard_uncertainty largerOfInput =
      Option.some (max 0.001 (5 / 100 * largerOfInput.mean)) ∧
    effective_standard_uncertainty largerOfInput = Option.some 0.1 ∧
    (0.1 : ℚ) ≠ 0.001 ∧
    resolveUncertainties dataLarger = Except.ok [("x", 0.1)] ∧
    (∀ h : ℚ, 0 < h → ∃ r,
      calculate_uncertainty dataLarger idCalc h 2 = Except.ok r ∧
      getVal? r.u "y" = Option.some 0.1)) :=
  ⟨rfl, rfl, C1_larger_of_rule largerOfInput 0.001 5 rfl rfl⟩
